import Mathlib

/-!
# osgopenvrviewer: device session (`src/openvrdevice.h`)

A shallow embedding of the data model declared in `openvrdevice.h` (the
`OpenVRDevice` session with its controller and tracker slot tables, the
`Button` codes, the swap callback) together with the member functions whose
bodies the header contains (`nearClip`, `farClip`, `setNearClip`,
`setFarClip`, `frameIndex`, the constructors' member initialisers).

The header only *declares* `assignIDs`, `submitFrame`, `init`,
`hmdInitialized` and `swapBuffersImplementation`; their bodies live in a
translation unit that is not part of the sources at hand.  Those functions
are modelled from the written specification and every such definition says
so in its doc comment.

Conventions.
* `int` is a 32 bit two's complement integer, embedded in `Int`; the only
  arithmetic performed on an `int` is the frame counter's increment, which
  wraps through `wrapInt32`.
* `float` values are only stored and returned, never computed with; they are
  embedded as their bit pattern.
* a C array `T a[n]` is a function `Fin n → T`.
-/

namespace OpenVR

/-! ## Scalars and small value types -/

/-- An IEEE single precision value, kept as its bit pattern. -/
structure float where
  bits : Nat
deriving DecidableEq

/-- The type `osg::Vec3`. -/
structure Vec3 where
  x : float
  y : float
  z : float
deriving DecidableEq

/-- The type `osg::Quat`. -/
structure Quat where
  x : float
  y : float
  z : float
  w : float
deriving DecidableEq

/-- The type `osg::Matrixf`, a 4 by 4 matrix of floats. -/
abbrev Matrixf : Type := Fin 4 → Fin 4 → float

/-- Reduction of an integer to the range of a 32 bit two's complement `int`. -/
def wrapInt32 (x : Int) : Int := (x + 2147483648) % 4294967296 - 2147483648

/-- The largest value of a 32 bit `int`. -/
def INT_MAX : Int := 2147483647

/-! ## `OpenVRDevice::Button` and `OpenVRDevice::Eye` -/

/-- The enumeration `OpenVRDevice::Button`. -/
inductive Button where
  | MENU
  | GRIP
  | PAD
  | TRIGGER
deriving DecidableEq

/-- The enumerator values of `Button`: `MENU = 1, GRIP = 2, PAD = 32, TRIGGER = 33`. -/
def Button.code : Button → Nat
  | .MENU => 1
  | .GRIP => 2
  | .PAD => 32
  | .TRIGGER => 33

/-- The single-bit mask of a button code in an unsigned word of `width` bits:
`1 << code`, reduced modulo `2 ^ width`. -/
def Button.mask (width : Nat) (b : Button) : Nat := 2 ^ b.code % 2 ^ width

/-- The enumeration `OpenVRDevice::Eye` (`LEFT = 0, RIGHT = 1`; `COUNT = 2` is the array size). -/
inductive Eye where
  | LEFT
  | RIGHT
deriving DecidableEq

/-! ## Slots -/

/-- The struct `OpenVRDevice::ControllerData`.  Members with a default member
initialiser in the header carry the same default here; the others have none. -/
structure ControllerData where
  deviceID : Int := -1
  hand : Int := -1
  idtrigger : Int := -1
  idpad : Int := -1
  padX : float
  padY : float
  trigVal : float
  menuPressed : Bool := false
  gripPressed : Bool := false
  padPressed : Bool := false
  triggerPressed : Bool := false
  position : Vec3
  rotation : Quat
  isValid : Bool
deriving DecidableEq

/-- The struct `OpenVRDevice::TrackerData`. -/
structure TrackerData where
  deviceID : Int := -1
  position : Vec3
  rotation : Quat
  isValid : Bool
deriving DecidableEq

/-- The members of a `ControllerData` that the header leaves without an initialiser. -/
structure ControllerIndeterminate where
  padX : float
  padY : float
  trigVal : float
  position : Vec3
  rotation : Quat
  isValid : Bool
deriving DecidableEq

/-- The members of a `TrackerData` that the header leaves without an initialiser. -/
structure TrackerIndeterminate where
  position : Vec3
  rotation : Quat
  isValid : Bool
deriving DecidableEq

/-- A default-initialised `ControllerData`: the default member initialisers of
the header, and whatever the storage held for the remaining members. -/
def ControllerData.defaultInit (u : ControllerIndeterminate) : ControllerData :=
  { padX := u.padX, padY := u.padY, trigVal := u.trigVal,
    position := u.position, rotation := u.rotation, isValid := u.isValid }

/-- A default-initialised `TrackerData`. -/
def TrackerData.defaultInit (u : TrackerIndeterminate) : TrackerData :=
  { position := u.position, rotation := u.rotation, isValid := u.isValid }

/-! ## The session -/

/-- The data members of `class OpenVRDevice`.  The two pointers to the runtime
are `none` for a null pointer; the render targets, which are GPU objects, are
kept as optional handles. -/
structure OpenVRDevice where
  controllers : Fin 2 → ControllerData
  trackers : Fin 32 → TrackerData
  hmdDeviceID : Int := -1
  numControllers : Int := 2
  numTrackers : Int := 0
  m_textureBuffer : Fin 2 → Option Nat
  m_mirrorTexture : Option Nat
  m_leftEyeProjectionMatrix : Matrixf
  m_rightEyeProjectionMatrix : Matrixf
  m_leftEyeAdjust : Vec3
  m_rightEyeAdjust : Vec3
  m_position : Vec3
  m_orientation : Quat
  m_nearClip : float
  m_farClip : float
  m_samples : Int
  m_vrSystem : Option Nat
  m_vrRenderModels : Option Nat
  m_worldUnitsPerMetre : float

/-- The members of a session and of its slots for which the header has no
default member initialiser. -/
structure SessionIndeterminate where
  controllers : Fin 2 → ControllerIndeterminate
  trackers : Fin 32 → TrackerIndeterminate
  m_textureBuffer : Fin 2 → Option Nat
  m_mirrorTexture : Option Nat
  m_leftEyeProjectionMatrix : Matrixf
  m_rightEyeProjectionMatrix : Matrixf
  m_leftEyeAdjust : Vec3
  m_rightEyeAdjust : Vec3
  m_position : Vec3
  m_orientation : Quat
  m_nearClip : float
  m_farClip : float
  m_samples : Int
  m_vrSystem : Option Nat
  m_vrRenderModels : Option Nat
  m_worldUnitsPerMetre : float

/-- A session whose members hold the default member initialisers of the header
(both slot tables, `hmdDeviceID = -1`, `numControllers = 2`,
`numTrackers = 0`) and, for the members that have none, the given values.
Every freshly constructed session has this form. -/
def OpenVRDevice.defaultInit (u : SessionIndeterminate) : OpenVRDevice :=
  { controllers := fun k => ControllerData.defaultInit (u.controllers k)
    trackers := fun k => TrackerData.defaultInit (u.trackers k)
    m_textureBuffer := u.m_textureBuffer
    m_mirrorTexture := u.m_mirrorTexture
    m_leftEyeProjectionMatrix := u.m_leftEyeProjectionMatrix
    m_rightEyeProjectionMatrix := u.m_rightEyeProjectionMatrix
    m_leftEyeAdjust := u.m_leftEyeAdjust
    m_rightEyeAdjust := u.m_rightEyeAdjust
    m_position := u.m_position
    m_orientation := u.m_orientation
    m_nearClip := u.m_nearClip
    m_farClip := u.m_farClip
    m_samples := u.m_samples
    m_vrSystem := u.m_vrSystem
    m_vrRenderModels := u.m_vrRenderModels
    m_worldUnitsPerMetre := u.m_worldUnitsPerMetre }

/-- Modelled from the spec: the body of the constructor
`OpenVRDevice(nearClip, farClip, worldUnitsPerMetre, samples)` is not in the
header.  Near clip, far clip, scale and sample count are "supplied at
construction"; the runtime handle is opened by `init()` only, so it is null
after construction; every other member is default-initialised. -/
def OpenVRDevice.construct (nearClip farClip worldUnitsPerMetre : float) (samples : Int)
    (u : SessionIndeterminate) : OpenVRDevice :=
  OpenVRDevice.defaultInit
    { u with
      m_nearClip := nearClip, m_farClip := farClip, m_samples := samples,
      m_vrSystem := none, m_worldUnitsPerMetre := worldUnitsPerMetre }

/-- The accessor `float nearClip() const { return m_nearClip; }`. -/
def OpenVRDevice.nearClip (s : OpenVRDevice) : float := s.m_nearClip

/-- The accessor `float farClip() const { return m_farClip; }`. -/
def OpenVRDevice.farClip (s : OpenVRDevice) : float := s.m_farClip

/-- The setter `void setNearClip(const float nearclip) { m_nearClip = nearclip; }`. -/
def OpenVRDevice.setNearClip (s : OpenVRDevice) (nearclip : float) : OpenVRDevice :=
  { s with m_nearClip := nearclip }

/-- The setter `void setFarClip(const float farclip) { m_farClip = farclip; }`. -/
def OpenVRDevice.setFarClip (s : OpenVRDevice) (farclip : float) : OpenVRDevice :=
  { s with m_farClip := farclip }

/-- The accessor `osg::Vec3 position() const { return m_position; }`. -/
def OpenVRDevice.position (s : OpenVRDevice) : Vec3 := s.m_position

/-- The accessor `osg::Quat orientation() const { return m_orientation; }`. -/
def OpenVRDevice.orientation (s : OpenVRDevice) : Quat := s.m_orientation

/-- The accessor `vr::IVRSystem* vrSystem() const { return m_vrSystem; }`. -/
def OpenVRDevice.vrSystem (s : OpenVRDevice) : Option Nat := s.m_vrSystem

/-! ## The runtime as seen by the session -/

/-- Modelled from the spec: the VR runtime is an outside service, described by
its interface only.  This is the class it reports for a device index: HMD,
controller, generic tracker, or anything else. -/
inductive DeviceClass where
  | Invalid
  | HMD
  | Controller
  | GenericTracker
  | Other
deriving DecidableEq

/-- Modelled from the spec: what the runtime reports about one device index:
whether a device is connected there, its class, its handedness in the
encoding of the `hand` field (`0` invalid, `1` left, `2` right) and the axis
ids of its trigger and touchpad. -/
structure TrackedDevice where
  connected : Bool
  deviceClass : DeviceClass
  hand : Int
  idtrigger : Int
  idpad : Int
deriving DecidableEq

/-- Modelled from the spec: the connected-device topology that `assignIDs`
enumerates.  Entry `i` is the report for device index `i`, and the length is
the runtime's maximum device count (a small number, so every index fits an
`int`). -/
abbrev Topology : Type := List TrackedDevice

/-- Whether identifier `id` names a device that the runtime reports as connected. -/
def deviceConnected (rt : Topology) (id : Int) : Bool :=
  match id with
  | Int.ofNat n =>
    match rt[n]? with
    | some d => d.connected
    | none => false
  | Int.negSucc _ => false

/-! ## `assignIDs` -/

/-- Modelled from the spec: invalidation in place of a controller slot,
"identifier reset to sentinel, hand/axis fields reset"; the fields return to
their default member initialisers and nothing else in the slot changes. -/
def ControllerData.invalidate (c : ControllerData) : ControllerData :=
  { c with deviceID := -1, hand := -1, idtrigger := -1, idpad := -1 }

/-- Modelled from the spec: invalidation in place of a tracker slot,
"identifier reset to sentinel". -/
def TrackerData.invalidate (t : TrackerData) : TrackerData :=
  { t with deviceID := -1 }

/-- Modelled from the spec: the reassignment policy of `assignIDs`, whose body
is not in the header: "a previously bound slot whose device disconnects is
invalidated in place ... without disturbing any other slot". -/
def invalidateDisconnected (rt : Topology) (s : OpenVRDevice) : OpenVRDevice :=
  { s with
    controllers := fun k =>
      if (s.controllers k).deviceID ≠ -1 ∧ deviceConnected rt (s.controllers k).deviceID = false
      then (s.controllers k).invalidate else s.controllers k
    trackers := fun k =>
      if (s.trackers k).deviceID ≠ -1 ∧ deviceConnected rt (s.trackers k).deviceID = false
      then (s.trackers k).invalidate else s.trackers k }

/-- Modelled from the spec: the controller table is "keyed by the
runtime-reported handedness (left/right)": left is slot 0, right is slot 1,
and a controller that reports neither has no slot. -/
def handSlot (hand : Int) : Option (Fin 2) :=
  if hand = 1 then some 0 else if hand = 2 then some 1 else none

/-- Modelled from the spec: trackers are bound "up to [the table's] fixed
capacity"; a new tracker takes the lowest tracker slot that holds the
sentinel, if there is one. -/
def firstFreeTracker (t : Fin 32 → TrackerData) : Option (Fin 32) :=
  (List.finRange 32).find? (fun k => decide ((t k).deviceID = -1))

/-- Modelled from the spec: what `assignIDs` does with one enumerated device
(its body is not in the header).  A device that is not connected is skipped.
The HMD identifier is bound once.  A controller is bound into the slot of its
hand when it is not bound already and that slot is free, and ignored
otherwise.  A tracker is bound into the lowest free tracker slot when it is not
bound already, and dropped when the table is full. -/
def bindDevice (s : OpenVRDevice) (p : Nat × TrackedDevice) : OpenVRDevice :=
  if p.2.connected = true then
    match p.2.deviceClass with
    | .HMD => if s.hmdDeviceID = -1 then { s with hmdDeviceID := (p.1 : Int) } else s
    | .Controller =>
      match handSlot p.2.hand with
      | none => s
      | some k =>
        if (∃ j, (s.controllers j).deviceID = (p.1 : Int)) ∨ (s.controllers k).deviceID ≠ -1 then s
        else
          { s with
            controllers := Function.update s.controllers k
              { s.controllers k with
                deviceID := (p.1 : Int), hand := p.2.hand,
                idtrigger := p.2.idtrigger, idpad := p.2.idpad } }
    | .GenericTracker =>
      if ∃ j, (s.trackers j).deviceID = (p.1 : Int) then s
      else
        match firstFreeTracker s.trackers with
        | none => s
        | some k =>
          { s with
            trackers := Function.update s.trackers k
              { s.trackers k with deviceID := (p.1 : Int) } }
    | _ => s
  else s

/-- Modelled from the spec: `void assignIDs()`, declared in the header, body
absent.  Slots whose device disconnected are invalidated in place, then the
device indices are enumerated in order up to the runtime's maximum device
count and each connected device is classified and bound. -/
def OpenVRDevice.assignIDs (rt : Topology) (s : OpenVRDevice) : OpenVRDevice :=
  rt.enum.foldl bindDevice (invalidateDisconnected rt s)

/-- The session states reachable from a freshly constructed session by calls
of `assignIDs`, each against an arbitrary topology. -/
inductive Reachable : OpenVRDevice → Prop where
  | fresh (u : SessionIndeterminate) : Reachable (OpenVRDevice.defaultInit u)
  | assign (rt : Topology) (s : OpenVRDevice) :
      Reachable s → Reachable (s.assignIDs rt)

/-! ## `init`, `hmdInitialized`, `submitFrame` -/

/-- Modelled from the spec: `bool hmdInitialized() const`, body absent; the
session is initialised when it holds an open runtime handle. -/
def OpenVRDevice.hmdInitialized (s : OpenVRDevice) : Bool := s.m_vrSystem.isSome

/-- Modelled from the spec: `void init()`, body absent; it "opens the
VR-runtime handle" and fails, leaving the session without a handle, when no
HMD is present or the runtime does not initialise.  The argument is what the
runtime returned. -/
def OpenVRDevice.init (s : OpenVRDevice) (runtime : Option Nat) : OpenVRDevice :=
  { s with m_vrSystem := runtime }

/-- Modelled from the spec: `bool submitFrame()`, body absent; it "fails ... if
the session is not initialized or the compositor declines".  The argument
says whether the compositor accepts the frame. -/
def OpenVRDevice.submitFrame (s : OpenVRDevice) (compositorAccepts : Bool) : Bool :=
  if s.hmdInitialized = true then compositorAccepts else false

/-! ## The swap callback -/

/-- The data members of `class OpenVRSwapCallback`. -/
structure OpenVRSwapCallback where
  m_device : Option Nat
  m_frameIndex : Int

/-- The constructor `OpenVRSwapCallback(device) : m_device(device), m_frameIndex(0)`. -/
def OpenVRSwapCallback.construct (device : Option Nat) : OpenVRSwapCallback :=
  { m_device := device, m_frameIndex := 0 }

/-- The accessor `int frameIndex() const { return m_frameIndex; }`. -/
def OpenVRSwapCallback.frameIndex (cb : OpenVRSwapCallback) : Int := cb.m_frameIndex

/-- Modelled from the spec: `void swapBuffersImplementation(gc)`, body absent;
it "increments a monotonic frame counter".  The counter is the `int`
`m_frameIndex`, so the increment is taken in 32 bit two's complement. -/
def OpenVRSwapCallback.swapBuffersImplementation (cb : OpenVRSwapCallback) :
    OpenVRSwapCallback :=
  { cb with m_frameIndex := wrapInt32 (cb.m_frameIndex + 1) }

/-! ## Concrete values used as inputs of examples -/

/-- The float with an all-zero bit pattern. -/
def zeroFloat : float := ⟨0⟩

/-- A zero vector. -/
def zeroVec3 : Vec3 := ⟨zeroFloat, zeroFloat, zeroFloat⟩

/-- A quaternion of zeros. -/
def zeroQuat : Quat := ⟨zeroFloat, zeroFloat, zeroFloat, zeroFloat⟩

/-- Storage that happens to be zeroed. -/
def zeroIndeterminate : SessionIndeterminate :=
  { controllers := fun _ => ⟨zeroFloat, zeroFloat, zeroFloat, zeroVec3, zeroQuat, false⟩
    trackers := fun _ => ⟨zeroVec3, zeroQuat, false⟩
    m_textureBuffer := fun _ => none
    m_mirrorTexture := none
    m_leftEyeProjectionMatrix := fun _ _ => zeroFloat
    m_rightEyeProjectionMatrix := fun _ _ => zeroFloat
    m_leftEyeAdjust := zeroVec3
    m_rightEyeAdjust := zeroVec3
    m_position := zeroVec3
    m_orientation := zeroQuat
    m_nearClip := zeroFloat
    m_farClip := zeroFloat
    m_samples := 0
    m_vrSystem := none
    m_vrRenderModels := none
    m_worldUnitsPerMetre := zeroFloat }

/-- A session constructed with near clip, far clip and scale of bit pattern
`1, 2, 3`, no multisampling, over zeroed storage. -/
def sampleSession : OpenVRDevice :=
  OpenVRDevice.construct ⟨1⟩ ⟨2⟩ ⟨3⟩ 0 zeroIndeterminate

/-! ## Predicates used in the proofs about `assignIDs` -/

/-- Device `p` of an enumeration needs nothing more from `assignIDs` in state
`s`: it is not connected, or its binding is in place, or there is no room for it. -/
def Settled (s : OpenVRDevice) (p : Nat × TrackedDevice) : Prop :=
  p.2.connected = true →
    (p.2.deviceClass = DeviceClass.HMD → s.hmdDeviceID ≠ -1) ∧
    (p.2.deviceClass = DeviceClass.Controller → ∀ k, handSlot p.2.hand = some k →
      (∃ j, (s.controllers j).deviceID = (p.1 : Int)) ∨ (s.controllers k).deviceID ≠ -1) ∧
    (p.2.deviceClass = DeviceClass.GenericTracker →
      (∃ j, (s.trackers j).deviceID = (p.1 : Int)) ∨ ∀ k, (s.trackers k).deviceID ≠ -1)

/-- Every bound slot of `s` names a device that is connected in `rt`. -/
def AllConnected (rt : Topology) (s : OpenVRDevice) : Prop :=
  (∀ k, (s.controllers k).deviceID = -1 ∨ deviceConnected rt (s.controllers k).deviceID = true) ∧
  (∀ k, (s.trackers k).deviceID = -1 ∨ deviceConnected rt (s.trackers k).deviceID = true)

/-- Every controller slot is either unassigned with hand and axis ids unset, or
bound to a device index under the hand that keys the slot. -/
def HandKeyed (s : OpenVRDevice) : Prop :=
  ∀ k, ((s.controllers k).deviceID = -1 ∧ (s.controllers k).hand = -1 ∧
        (s.controllers k).idtrigger = -1 ∧ (s.controllers k).idpad = -1) ∨
       (0 ≤ (s.controllers k).deviceID ∧ handSlot (s.controllers k).hand = some k)

/-! ## Sample topologies -/

/-- C1: the sentinel stored by default in `ControllerData.deviceID`,
`TrackerData.deviceID` and `hmdDeviceID` is `-1`, and a real device
identifier `d` (a device index, `0 ≤ d`) is different from it: a slot whose
identifier is `d` does not hold the sentinel, and a slot holding the sentinel
does not hold `d`. -/
theorem sentinel_never_collides (d : Int) (hd : 0 ≤ d) :
    (∀ u, (ControllerData.defaultInit u).deviceID = -1) ∧
    (∀ u, (TrackerData.defaultInit u).deviceID = -1) ∧
    (∀ u, (OpenVRDevice.defaultInit u).hmdDeviceID = -1) ∧
    (∀ u, d ≠ (ControllerData.defaultInit u).deviceID) ∧
    (∀ u, d ≠ (TrackerData.defaultInit u).deviceID) ∧
    (∀ u, d ≠ (OpenVRDevice.defaultInit u).hmdDeviceID) ∧
    (∀ c : ControllerData, c.deviceID = d → c.deviceID ≠ -1) ∧
    (∀ t : TrackerData, t.deviceID = d → t.deviceID ≠ -1) ∧
    (∀ c : ControllerData, c.deviceID = -1 → c.deviceID ≠ d) ∧
    (∀ t : TrackerData, t.deviceID = -1 → t.deviceID ≠ d) := by
  have hne : d ≠ -1 := by omega
  refine ⟨fun _ => rfl, fun _ => rfl, fun _ => rfl, fun _ => hne, fun _ => hne,
    fun _ => hne, ?_, ?_, ?_, ?_⟩
  · intro c hc; rw [hc]; exact hne
  · intro t ht; rw [ht]; exact hne
  · intro c hc; rw [hc]; exact fun h => hne h.symm
  · intro t ht; rw [ht]; exact fun h => hne h.symm

/-- Instance of `sentinel_never_collides` at the device index `0`. -/
theorem sentinel_never_collides_witness :
    (0 : Int) ≤ 0 ∧
    ((0 : Int) ≠ (sampleSession.controllers 0).deviceID ∧
     (0 : Int) ≠ (sampleSession.trackers 0).deviceID ∧
     (0 : Int) ≠ sampleSession.hmdDeviceID) :=
  ⟨le_refl 0,
   (sentinel_never_collides 0 (le_refl 0)).2.2.2.1 _,
   (sentinel_never_collides 0 (le_refl 0)).2.2.2.2.1 _,
   (sentinel_never_collides 0 (le_refl 0)).2.2.2.2.2.1 _⟩

/-- The modelled constructor returns a default-initialised session. -/
theorem construct_eq_defaultInit (nearClip farClip worldUnitsPerMetre : float) (samples : Int)
    (u : SessionIndeterminate) :
    OpenVRDevice.construct nearClip farClip worldUnitsPerMetre samples u =
      OpenVRDevice.defaultInit
        { u with
          m_nearClip := nearClip, m_farClip := farClip, m_samples := samples,
          m_vrSystem := none, m_worldUnitsPerMetre := worldUnitsPerMetre } := rfl

/-- C2: in a freshly constructed session (default member initialisers, before
any `assignIDs` call) no device is bound: the HMD identifier, the identifier
of each of the 2 controller slots and of each of the 32 tracker slots equal
the sentinel `-1`, each controller slot has its trigger and pad axis ids
unset (`-1`) and its four button states false.  The session returned by the
modelled constructor is of this form. -/
theorem fresh_session_unbound (u : SessionIndeterminate) :
    (OpenVRDevice.defaultInit u).hmdDeviceID = -1 ∧
    (∀ k : Fin 2,
      ((OpenVRDevice.defaultInit u).controllers k).deviceID = -1 ∧
      ((OpenVRDevice.defaultInit u).controllers k).idtrigger = -1 ∧
      ((OpenVRDevice.defaultInit u).controllers k).idpad = -1 ∧
      ((OpenVRDevice.defaultInit u).controllers k).menuPressed = false ∧
      ((OpenVRDevice.defaultInit u).controllers k).gripPressed = false ∧
      ((OpenVRDevice.defaultInit u).controllers k).padPressed = false ∧
      ((OpenVRDevice.defaultInit u).controllers k).triggerPressed = false) ∧
    (∀ k : Fin 32, ((OpenVRDevice.defaultInit u).trackers k).deviceID = -1) ∧
    (∀ nearClip farClip worldUnitsPerMetre samples,
      (OpenVRDevice.construct nearClip farClip worldUnitsPerMetre samples u).hmdDeviceID = -1 ∧
      (∀ k : Fin 2,
        ((OpenVRDevice.construct nearClip farClip worldUnitsPerMetre samples u).controllers
          k).deviceID = -1) ∧
      (∀ k : Fin 32,
        ((OpenVRDevice.construct nearClip farClip worldUnitsPerMetre samples u).trackers
          k).deviceID = -1)) :=
  ⟨rfl, fun _ => ⟨rfl, rfl, rfl, rfl, rfl, rfl, rfl⟩, fun _ => rfl,
   fun _ _ _ _ => ⟨rfl, fun _ => rfl, fun _ => rfl⟩⟩

/-! ## Clip planes -/

/-- C7: near and far clip are independently mutable: after `setNearClip x`,
`nearClip` returns `x` and `farClip` its previous value; after `setFarClip x`,
`farClip` returns `x` and `nearClip` its previous value; both setters leave
the scale, the sample count, the head pose, every controller and tracker
slot and every other member unchanged. -/
theorem clip_setters_independent (s : OpenVRDevice) (x : float) :
    (s.setNearClip x).nearClip = x ∧ (s.setNearClip x).farClip = s.farClip ∧
    (s.setFarClip x).farClip = x ∧ (s.setFarClip x).nearClip = s.nearClip ∧
    (∀ t : OpenVRDevice, t = s.setNearClip x ∨ t = s.setFarClip x →
      t.m_worldUnitsPerMetre = s.m_worldUnitsPerMetre ∧ t.m_samples = s.m_samples ∧
      t.position = s.position ∧ t.orientation = s.orientation ∧
      t.controllers = s.controllers ∧ t.trackers = s.trackers ∧
      t.hmdDeviceID = s.hmdDeviceID ∧ t.numControllers = s.numControllers ∧
      t.numTrackers = s.numTrackers ∧ t.m_textureBuffer = s.m_textureBuffer ∧
      t.m_mirrorTexture = s.m_mirrorTexture ∧
      t.m_leftEyeProjectionMatrix = s.m_leftEyeProjectionMatrix ∧
      t.m_rightEyeProjectionMatrix = s.m_rightEyeProjectionMatrix ∧
      t.m_leftEyeAdjust = s.m_leftEyeAdjust ∧ t.m_rightEyeAdjust = s.m_rightEyeAdjust ∧
      t.m_vrSystem = s.m_vrSystem ∧ t.m_vrRenderModels = s.m_vrRenderModels) := by
  refine ⟨rfl, rfl, rfl, rfl, ?_⟩
  rintro t (rfl | rfl) <;>
    exact ⟨rfl, rfl, rfl, rfl, rfl, rfl, rfl, rfl, rfl, rfl, rfl, rfl, rfl, rfl, rfl, rfl, rfl⟩

/-- Instance of `clip_setters_independent` on the sample session: setting the
near clip to the bit pattern `7` is read back and keeps the far clip, the
scale and the slots. -/
theorem clip_setters_independent_witness :
    (sampleSession.setNearClip ⟨7⟩).nearClip = ⟨7⟩ ∧
    (sampleSession.setNearClip ⟨7⟩).farClip = sampleSession.farClip ∧
    (sampleSession.setNearClip ⟨7⟩).m_worldUnitsPerMetre = sampleSession.m_worldUnitsPerMetre ∧
    (sampleSession.setNearClip ⟨7⟩).controllers = sampleSession.controllers :=
  ⟨(clip_setters_independent sampleSession ⟨7⟩).1,
   (clip_setters_independent sampleSession ⟨7⟩).2.1,
   ((clip_setters_independent sampleSession ⟨7⟩).2.2.2.2 _ (Or.inl rfl)).1,
   ((clip_setters_independent sampleSession ⟨7⟩).2.2.2.2 _ (Or.inl rfl)).2.2.2.2.1⟩

/-! ## Button codes -/

/-- C10: the four button codes `MENU = 1, GRIP = 2, PAD = 32, TRIGGER = 33` are
pairwise distinct and below 64; their single-bit masks in a 64 bit word are
non-zero and pairwise disjoint, whereas in a 32 bit word the masks of `PAD`
and `TRIGGER` are both `0`. -/
theorem button_masks_need_64_bits :
    Button.MENU.code = 1 ∧ Button.GRIP.code = 2 ∧ Button.PAD.code = 32 ∧
    Button.TRIGGER.code = 33 ∧
    (∀ a b : Button, a ≠ b → a.code ≠ b.code) ∧
    (∀ b : Button, b.code < 64) ∧
    (∀ b : Button, Button.mask 64 b ≠ 0) ∧
    (∀ a b : Button, a ≠ b → Button.mask 64 a &&& Button.mask 64 b = 0) ∧
    Button.mask 32 Button.PAD = 0 ∧ Button.mask 32 Button.TRIGGER = 0 := by
  refine ⟨rfl, rfl, rfl, rfl, ?_, ?_, ?_, ?_, ?_, ?_⟩
  · intro a b; cases a <;> cases b <;> decide
  · intro b; cases b <;> decide
  · intro b; cases b <;> decide
  · intro a b; cases a <;> cases b <;> decide
  · decide
  · decide

/-- Instance of `button_masks_need_64_bits` at the pair `PAD`, `TRIGGER`. -/
theorem button_masks_need_64_bits_witness :
    Button.PAD ≠ Button.TRIGGER ∧
    Button.mask 64 Button.PAD &&& Button.mask 64 Button.TRIGGER = 0 :=
  ⟨by decide, button_masks_need_64_bits.2.2.2.2.2.2.2.1 _ _ (by decide)⟩

/-! ## Frame submission -/

/-- C6: `submitFrame` is gated on initialisation: on a session that is not
initialised (`hmdInitialized` is false, as it is after construction and
before `init`) it returns failure whatever the compositor would answer, and
it returns success exactly when the session is initialised and the
compositor accepts the frame. -/
theorem submitFrame_gated (s : OpenVRDevice) (compositorAccepts : Bool)
    (h : s.hmdInitialized = false) :
    s.submitFrame compositorAccepts = false ∧
    (∀ n f w m u, (OpenVRDevice.construct n f w m u).hmdInitialized = false) ∧
    (∀ t : OpenVRDevice, (t.init none).hmdInitialized = false) ∧
    (∀ (t : OpenVRDevice) (c : Bool),
      t.submitFrame c = true ↔ (t.hmdInitialized = true ∧ c = true)) := by
  refine ⟨?_, fun _ _ _ _ _ => rfl, fun _ => rfl, ?_⟩
  · simp [OpenVRDevice.submitFrame, h]
  · intro t c
    unfold OpenVRDevice.submitFrame
    cases t.hmdInitialized <;> simp

/-- Instance of `submitFrame_gated` on the sample session before `init`, with
a compositor that would accept. -/
theorem submitFrame_gated_witness :
    sampleSession.hmdInitialized = false ∧ sampleSession.submitFrame true = false :=
  ⟨rfl, (submitFrame_gated sampleSession true rfl).1⟩

/-! ## Frame counter -/

/-- The counter of a freshly constructed callback after `n` swaps. -/
theorem frameIndex_iterate (device : Option Nat) (n : Nat) :
    (OpenVRSwapCallback.swapBuffersImplementation^[n]
      (OpenVRSwapCallback.construct device)).frameIndex = wrapInt32 n := by
  induction n with
  | zero => rfl
  | succ k ih =>
    rw [Function.iterate_succ_apply']
    simp only [OpenVRSwapCallback.swapBuffersImplementation, OpenVRSwapCallback.frameIndex] at ih ⊢
    rw [ih]
    simp only [wrapInt32]
    push_cast
    omega

/-- C8 (as amended): a freshly constructed swap callback reports frame index
`0`; an invocation of `swapBuffersImplementation` on a counter below
`INT_MAX` increases it by exactly 1; and after `n ≤ INT_MAX` invocations the
frame index is `n`. -/
theorem frameIndex_counts_swaps (device : Option Nat) (n : Nat) (hn : (n : Int) ≤ INT_MAX) :
    (OpenVRSwapCallback.construct device).frameIndex = 0 ∧
    (OpenVRSwapCallback.swapBuffersImplementation^[n]
      (OpenVRSwapCallback.construct device)).frameIndex = n ∧
    (∀ cb : OpenVRSwapCallback, -2147483648 ≤ cb.frameIndex → cb.frameIndex < INT_MAX →
      cb.swapBuffersImplementation.frameIndex = cb.frameIndex + 1) := by
  unfold INT_MAX at *
  refine ⟨rfl, ?_, ?_⟩
  · rw [frameIndex_iterate]
    simp only [wrapInt32]
    omega
  · intro cb h1 h2
    simp only [OpenVRSwapCallback.swapBuffersImplementation, OpenVRSwapCallback.frameIndex,
      wrapInt32] at *
    omega

/-- Instance of `frameIndex_counts_swaps` at three swaps. -/
theorem frameIndex_counts_swaps_witness :
    ((3 : Nat) : Int) ≤ INT_MAX ∧
    (OpenVRSwapCallback.swapBuffersImplementation^[3]
      (OpenVRSwapCallback.construct none)).frameIndex = (3 : Nat) :=
  ⟨by decide, (frameIndex_counts_swaps none 3 (by decide)).2.1⟩

/-- C8 fails as stated: the swap that follows `INT_MAX` swaps does not bring
the frame index to `2147483648`; the `int` counter wraps to `-2147483648`,
which is a decrease. -/
theorem frameIndex_wraps :
    (OpenVRSwapCallback.swapBuffersImplementation^[2147483648]
      (OpenVRSwapCallback.construct none)).frameIndex ≠ ((2147483648 : Nat) : Int) ∧
    (OpenVRSwapCallback.swapBuffersImplementation^[2147483648]
      (OpenVRSwapCallback.construct none)).frameIndex = -2147483648 ∧
    (OpenVRSwapCallback.swapBuffersImplementation^[2147483648]
      (OpenVRSwapCallback.construct none)).frameIndex <
    (OpenVRSwapCallback.swapBuffersImplementation^[2147483647]
      (OpenVRSwapCallback.construct none)).frameIndex := by
  rw [frameIndex_iterate, frameIndex_iterate]
  refine ⟨?_, ?_, ?_⟩ <;> decide

/-! ## `assignIDs`: one enumerated device -/

theorem firstFreeTracker_none {t : Fin 32 → TrackerData} :
    firstFreeTracker t = none ↔ ∀ k, (t k).deviceID ≠ -1 := by
  unfold firstFreeTracker
  rw [List.find?_eq_none]
  simp [List.mem_finRange]

theorem firstFreeTracker_some {t : Fin 32 → TrackerData} {k : Fin 32}
    (h : firstFreeTracker t = some k) : (t k).deviceID = -1 := by
  unfold firstFreeTracker at h
  have := List.find?_some h
  simpa using this

theorem handSlot_some {h : Int} {k : Fin 2} (hk : handSlot h = some k) :
    (h = 1 ∧ k = 0) ∨ (h = 2 ∧ k = 1) := by
  unfold handSlot at hk
  split_ifs at hk with h1 h2
  · left; exact ⟨h1, (Option.some.inj hk).symm⟩
  · right; exact ⟨h2, (Option.some.inj hk).symm⟩

theorem natCast_ne_neg_one (n : Nat) : (n : Int) ≠ -1 := by omega

theorem bindDevice_disconnected {s : OpenVRDevice} {p : Nat × TrackedDevice}
    (hc : ¬ p.2.connected = true) : bindDevice s p = s := by
  simp [bindDevice, hc]

theorem bindDevice_HMD {s : OpenVRDevice} {p : Nat × TrackedDevice}
    (hc : p.2.connected = true) (hcl : p.2.deviceClass = DeviceClass.HMD) :
    bindDevice s p = if s.hmdDeviceID = -1 then { s with hmdDeviceID := (p.1 : Int) } else s := by
  simp [bindDevice, hc, hcl]

theorem bindDevice_Controller_none {s : OpenVRDevice} {p : Nat × TrackedDevice}
    (hc : p.2.connected = true) (hcl : p.2.deviceClass = DeviceClass.Controller)
    (hk : handSlot p.2.hand = none) : bindDevice s p = s := by
  simp [bindDevice, hc, hcl, hk]

theorem bindDevice_Controller_some {s : OpenVRDevice} {p : Nat × TrackedDevice} {k : Fin 2}
    (hc : p.2.connected = true) (hcl : p.2.deviceClass = DeviceClass.Controller)
    (hk : handSlot p.2.hand = some k) :
    bindDevice s p =
      if (∃ j, (s.controllers j).deviceID = (p.1 : Int)) ∨ (s.controllers k).deviceID ≠ -1 then s
      else
        { s with
          controllers := Function.update s.controllers k
            { s.controllers k with
              deviceID := (p.1 : Int), hand := p.2.hand,
              idtrigger := p.2.idtrigger, idpad := p.2.idpad } } := by
  simp [bindDevice, hc, hcl, hk]

theorem bindDevice_GenericTracker {s : OpenVRDevice} {p : Nat × TrackedDevice}
    (hc : p.2.connected = true) (hcl : p.2.deviceClass = DeviceClass.GenericTracker) :
    bindDevice s p =
      if ∃ j, (s.trackers j).deviceID = (p.1 : Int) then s
      else
        match firstFreeTracker s.trackers with
        | none => s
        | some k =>
          { s with
            trackers := Function.update s.trackers k
              { s.trackers k with deviceID := (p.1 : Int) } } := by
  simp [bindDevice, hc, hcl]

theorem bindDevice_Invalid {s : OpenVRDevice} {p : Nat × TrackedDevice}
    (hcl : p.2.deviceClass = DeviceClass.Invalid) : bindDevice s p = s := by
  simp [bindDevice, hcl]

theorem bindDevice_Other {s : OpenVRDevice} {p : Nat × TrackedDevice}
    (hcl : p.2.deviceClass = DeviceClass.Other) : bindDevice s p = s := by
  simp [bindDevice, hcl]

/-- What `bindDevice` does to the HMD identifier. -/
theorem bindDevice_hmd (s : OpenVRDevice) (p : Nat × TrackedDevice) :
    (bindDevice s p).hmdDeviceID = s.hmdDeviceID ∨
    (s.hmdDeviceID = -1 ∧ p.2.connected = true ∧ p.2.deviceClass = DeviceClass.HMD ∧
      (bindDevice s p).hmdDeviceID = (p.1 : Int)) := by
  by_cases hc : p.2.connected = true
  · cases hcl : p.2.deviceClass
    · rw [bindDevice_Invalid hcl]; exact Or.inl rfl
    · rw [bindDevice_HMD hc hcl]
      split_ifs with h
      · exact Or.inr ⟨h, hc, rfl, rfl⟩
      · exact Or.inl rfl
    · cases hk : handSlot p.2.hand with
      | none => rw [bindDevice_Controller_none hc hcl hk]; exact Or.inl rfl
      | some k =>
        rw [bindDevice_Controller_some hc hcl hk]
        split_ifs <;> exact Or.inl rfl
    · rw [bindDevice_GenericTracker hc hcl]
      split_ifs
      · exact Or.inl rfl
      · split <;> exact Or.inl rfl
    · rw [bindDevice_Other hcl]; exact Or.inl rfl
  · rw [bindDevice_disconnected hc]; exact Or.inl rfl

/-- What `bindDevice` does to a controller slot. -/
theorem bindDevice_controllers (s : OpenVRDevice) (p : Nat × TrackedDevice) (j : Fin 2) :
    (bindDevice s p).controllers j = s.controllers j ∨
    ((s.controllers j).deviceID = -1 ∧ p.2.connected = true ∧
      p.2.deviceClass = DeviceClass.Controller ∧ handSlot p.2.hand = some j ∧
      (∀ i, (s.controllers i).deviceID ≠ (p.1 : Int)) ∧
      (bindDevice s p).controllers j =
        { s.controllers j with deviceID := (p.1 : Int), hand := p.2.hand,
                               idtrigger := p.2.idtrigger, idpad := p.2.idpad }) := by
  by_cases hc : p.2.connected = true
  · cases hcl : p.2.deviceClass
    · rw [bindDevice_Invalid hcl]; exact Or.inl rfl
    · rw [bindDevice_HMD hc hcl]
      split_ifs <;> exact Or.inl rfl
    · cases hk : handSlot p.2.hand with
      | none => rw [bindDevice_Controller_none hc hcl hk]; exact Or.inl rfl
      | some k =>
        rw [bindDevice_Controller_some hc hcl hk]
        split_ifs with h
        · exact Or.inl rfl
        · push_neg at h
          by_cases hjk : j = k
          · subst hjk
            right
            exact ⟨h.2, hc, rfl, rfl, h.1, by simp⟩
          · left; simp [Function.update_noteq hjk]
    · rw [bindDevice_GenericTracker hc hcl]
      split_ifs
      · exact Or.inl rfl
      · split <;> exact Or.inl rfl
    · rw [bindDevice_Other hcl]; exact Or.inl rfl
  · rw [bindDevice_disconnected hc]; exact Or.inl rfl

/-- What `bindDevice` does to a tracker slot. -/
theorem bindDevice_trackers (s : OpenVRDevice) (p : Nat × TrackedDevice) (j : Fin 32) :
    (bindDevice s p).trackers j = s.trackers j ∨
    ((s.trackers j).deviceID = -1 ∧ p.2.connected = true ∧
      p.2.deviceClass = DeviceClass.GenericTracker ∧
      (∀ i, (s.trackers i).deviceID ≠ (p.1 : Int)) ∧
      (bindDevice s p).trackers j = { s.trackers j with deviceID := (p.1 : Int) }) := by
  by_cases hc : p.2.connected = true
  · cases hcl : p.2.deviceClass
    · rw [bindDevice_Invalid hcl]; exact Or.inl rfl
    · rw [bindDevice_HMD hc hcl]
      split_ifs <;> exact Or.inl rfl
    · cases hk : handSlot p.2.hand with
      | none => rw [bindDevice_Controller_none hc hcl hk]; exact Or.inl rfl
      | some k =>
        rw [bindDevice_Controller_some hc hcl hk]
        split_ifs <;> exact Or.inl rfl
    · rw [bindDevice_GenericTracker hc hcl]
      split_ifs with h
      · exact Or.inl rfl
      · push_neg at h
        split
        · exact Or.inl rfl
        · rename_i k hk
          by_cases hjk : j = k
          · subst hjk
            right
            exact ⟨firstFreeTracker_some hk, hc, rfl, h, by simp⟩
          · left; simp [Function.update_noteq hjk]
    · rw [bindDevice_Other hcl]; exact Or.inl rfl
  · rw [bindDevice_disconnected hc]; exact Or.inl rfl

/-- A bound controller slot is left alone by `bindDevice`. -/
theorem bindDevice_keeps_controller {s : OpenVRDevice} (p : Nat × TrackedDevice) {j : Fin 2}
    (h : (s.controllers j).deviceID ≠ -1) : (bindDevice s p).controllers j = s.controllers j := by
  rcases bindDevice_controllers s p j with h1 | h1
  · exact h1
  · exact absurd h1.1 h

/-- A bound tracker slot is left alone by `bindDevice`. -/
theorem bindDevice_keeps_tracker {s : OpenVRDevice} (p : Nat × TrackedDevice) {j : Fin 32}
    (h : (s.trackers j).deviceID ≠ -1) : (bindDevice s p).trackers j = s.trackers j := by
  rcases bindDevice_trackers s p j with h1 | h1
  · exact h1
  · exact absurd h1.1 h

/-- A bound HMD identifier is left alone by `bindDevice`. -/
theorem bindDevice_keeps_hmd {s : OpenVRDevice} (p : Nat × TrackedDevice)
    (h : s.hmdDeviceID ≠ -1) : (bindDevice s p).hmdDeviceID = s.hmdDeviceID := by
  rcases bindDevice_hmd s p with h1 | h1
  · exact h1
  · exact absurd h1.1 h

/-- A settled device is skipped by `bindDevice`. -/
theorem bindDevice_of_settled {s : OpenVRDevice} {p : Nat × TrackedDevice}
    (h : Settled s p) : bindDevice s p = s := by
  by_cases hc : p.2.connected = true
  · obtain ⟨h1, h2, h3⟩ := h hc
    cases hcl : p.2.deviceClass
    · exact bindDevice_Invalid hcl
    · rw [bindDevice_HMD hc hcl, if_neg (h1 hcl)]
    · cases hk : handSlot p.2.hand with
      | none => exact bindDevice_Controller_none hc hcl hk
      | some k => rw [bindDevice_Controller_some hc hcl hk, if_pos (h2 hcl k hk)]
    · rw [bindDevice_GenericTracker hc hcl]
      rcases h3 hcl with h4 | h4
      · rw [if_pos h4]
      · rw [firstFreeTracker_none.mpr h4]
        split_ifs <;> rfl
    · exact bindDevice_Other hcl
  · exact bindDevice_disconnected hc

/-- After `bindDevice` has handled a device, that device is settled. -/
theorem settled_bindDevice_self (s : OpenVRDevice) (p : Nat × TrackedDevice) :
    Settled (bindDevice s p) p := by
  intro hc
  refine ⟨?_, ?_, ?_⟩
  · intro hcl
    rw [bindDevice_HMD hc hcl]
    split_ifs with h
    · exact natCast_ne_neg_one p.1
    · exact h
  · intro hcl k hk
    rw [bindDevice_Controller_some hc hcl hk]
    split_ifs with h
    · exact h
    · exact Or.inl ⟨k, by simp⟩
  · intro hcl
    rw [bindDevice_GenericTracker hc hcl]
    split_ifs with h
    · exact Or.inl h
    · cases hk : firstFreeTracker s.trackers with
      | none => exact Or.inr (firstFreeTracker_none.mp hk)
      | some k => exact Or.inl ⟨k, by simp⟩

/-- A settled device stays settled when `bindDevice` handles another device. -/
theorem settled_bindDevice_mono {s : OpenVRDevice} {a : Nat × TrackedDevice}
    (b : Nat × TrackedDevice) (h : Settled s a) : Settled (bindDevice s b) a := by
  intro hc
  obtain ⟨h1, h2, h3⟩ := h hc
  refine ⟨?_, ?_, ?_⟩
  · intro hcl
    rw [bindDevice_keeps_hmd b (h1 hcl)]
    exact h1 hcl
  · intro hcl k hk
    rcases h2 hcl k hk with ⟨j, hj⟩ | h4
    · left
      refine ⟨j, ?_⟩
      rw [bindDevice_keeps_controller b (by rw [hj]; exact natCast_ne_neg_one a.1)]
      exact hj
    · right
      rw [bindDevice_keeps_controller b h4]
      exact h4
  · intro hcl
    rcases h3 hcl with ⟨j, hj⟩ | h4
    · left
      refine ⟨j, ?_⟩
      rw [bindDevice_keeps_tracker b (by rw [hj]; exact natCast_ne_neg_one a.1)]
      exact hj
    · right
      intro k
      rw [bindDevice_keeps_tracker b (h4 k)]
      exact h4 k

/-- A property kept by every step of a fold holds after the fold. -/
theorem foldl_preserves {α σ : Type} (step : σ → α → σ) (P : σ → Prop) (L : List α)
    (h : ∀ s, ∀ a ∈ L, P s → P (step s a)) (s : σ) (hs : P s) : P (L.foldl step s) := by
  induction L generalizing s with
  | nil => exact hs
  | cons a L ih =>
    rw [List.foldl_cons]
    exact ih (fun t b hb ht => h t b (List.mem_cons_of_mem a hb) ht) _
      (h s a (List.mem_cons_self a L) hs)

/-- After folding `bindDevice` over an enumeration every enumerated device is settled. -/
theorem settled_foldl (L : List (Nat × TrackedDevice)) (s : OpenVRDevice) :
    ∀ p ∈ L, Settled (L.foldl bindDevice s) p := by
  induction L generalizing s with
  | nil => intro p hp; exact absurd hp (List.not_mem_nil p)
  | cons a L ih =>
    intro p hp
    rw [List.foldl_cons]
    rcases List.mem_cons.mp hp with rfl | hp
    · exact foldl_preserves bindDevice (fun t => Settled t p) L
        (fun t b _ ht => settled_bindDevice_mono b ht) _ (settled_bindDevice_self s p)
    · exact ih (bindDevice s a) p hp

/-- Folding `bindDevice` over devices that are all settled changes nothing. -/
theorem foldl_bindDevice_of_settled (L : List (Nat × TrackedDevice)) (s : OpenVRDevice)
    (h : ∀ p ∈ L, Settled s p) : L.foldl bindDevice s = s := by
  induction L with
  | nil => rfl
  | cons a L ih =>
    rw [List.foldl_cons, bindDevice_of_settled (h a (List.mem_cons_self a L))]
    exact ih (fun p hp => h p (List.mem_cons_of_mem a hp))

theorem deviceConnected_natCast (rt : Topology) (n : Nat) :
    deviceConnected rt (n : Int) = (match rt[n]? with
      | some d => d.connected
      | none => false) := rfl

/-- An enumerated device that reports itself connected is connected. -/
theorem deviceConnected_of_mem_enum {rt : Topology} {p : Nat × TrackedDevice}
    (hp : p ∈ rt.enum) (hc : p.2.connected = true) : deviceConnected rt (p.1 : Int) = true := by
  rw [deviceConnected_natCast, List.mem_enum_iff_getElem?.mp hp]
  exact hc

/-- After the invalidation pass every bound slot names a connected device. -/
theorem allConnected_invalidateDisconnected (rt : Topology) (s : OpenVRDevice) :
    AllConnected rt (invalidateDisconnected rt s) := by
  constructor
  · intro k
    simp only [invalidateDisconnected]
    split_ifs with h
    · exact Or.inl rfl
    · by_cases h1 : (s.controllers k).deviceID = -1
      · exact Or.inl h1
      · right
        by_contra h2
        exact h ⟨h1, by simpa using h2⟩
  · intro k
    simp only [invalidateDisconnected]
    split_ifs with h
    · exact Or.inl rfl
    · by_cases h1 : (s.trackers k).deviceID = -1
      · exact Or.inl h1
      · right
        by_contra h2
        exact h ⟨h1, by simpa using h2⟩

/-- Binding an enumerated device keeps every bound slot connected. -/
theorem allConnected_bindDevice {rt : Topology} {s : OpenVRDevice} {p : Nat × TrackedDevice}
    (hp : p ∈ rt.enum) (h : AllConnected rt s) : AllConnected rt (bindDevice s p) := by
  constructor
  · intro k
    rcases bindDevice_controllers s p k with h1 | ⟨_, hc, _, _, _, h1⟩
    · rw [h1]; exact h.1 k
    · rw [h1]; exact Or.inr (deviceConnected_of_mem_enum hp hc)
  · intro k
    rcases bindDevice_trackers s p k with h1 | ⟨_, hc, _, _, h1⟩
    · rw [h1]; exact h.2 k
    · rw [h1]; exact Or.inr (deviceConnected_of_mem_enum hp hc)

/-- The invalidation pass changes nothing when every bound slot is connected. -/
theorem invalidateDisconnected_of_allConnected {rt : Topology} {s : OpenVRDevice}
    (h : AllConnected rt s) : invalidateDisconnected rt s = s := by
  have hc : (fun k =>
      if (s.controllers k).deviceID ≠ -1 ∧ deviceConnected rt (s.controllers k).deviceID = false
      then (s.controllers k).invalidate else s.controllers k) = s.controllers := by
    funext k
    rcases h.1 k with h1 | h1
    · rw [if_neg (fun hh => hh.1 h1)]
    · rw [if_neg (fun hh => by rw [h1] at hh; exact absurd hh.2 (by simp))]
  have ht : (fun k =>
      if (s.trackers k).deviceID ≠ -1 ∧ deviceConnected rt (s.trackers k).deviceID = false
      then (s.trackers k).invalidate else s.trackers k) = s.trackers := by
    funext k
    rcases h.2 k with h1 | h1
    · rw [if_neg (fun hh => hh.1 h1)]
    · rw [if_neg (fun hh => by rw [h1] at hh; exact absurd hh.2 (by simp))]
  unfold invalidateDisconnected
  rw [hc, ht]

/-- After `assignIDs` every bound slot names a connected device. -/
theorem allConnected_assignIDs (rt : Topology) (s : OpenVRDevice) :
    AllConnected rt (s.assignIDs rt) :=
  foldl_preserves bindDevice (AllConnected rt) rt.enum
    (fun _ _ hp ht => allConnected_bindDevice hp ht) _ (allConnected_invalidateDisconnected rt s)

/-- After `assignIDs` every enumerated device is settled. -/
theorem settled_assignIDs (rt : Topology) (s : OpenVRDevice) :
    ∀ p ∈ rt.enum, Settled (s.assignIDs rt) p :=
  settled_foldl rt.enum (invalidateDisconnected rt s)

/-- A state in which every bound slot is connected and every enumerated device
is settled is a fixed point of `assignIDs`. -/
theorem assignIDs_eq_self {rt : Topology} {s : OpenVRDevice} (h1 : AllConnected rt s)
    (h2 : ∀ p ∈ rt.enum, Settled s p) : s.assignIDs rt = s := by
  unfold OpenVRDevice.assignIDs
  rw [invalidateDisconnected_of_allConnected h1]
  exact foldl_bindDevice_of_settled rt.enum s h2

/-- The state produced by `assignIDs` is a fixed point for the same topology. -/
theorem assignIDs_assignIDs (rt : Topology) (s : OpenVRDevice) :
    (s.assignIDs rt).assignIDs rt = s.assignIDs rt :=
  assignIDs_eq_self (allConnected_assignIDs rt s) (settled_assignIDs rt s)

/-- C4: `assignIDs` is idempotent on an unchanged topology: for every session
state and every topology, a second call against the same topology returns
the state the first call produced, so the HMD identifier, every controller
slot and every tracker slot are the same after both calls. -/
theorem assignIDs_idempotent (rt : Topology) (s : OpenVRDevice) :
    (s.assignIDs rt).assignIDs rt = s.assignIDs rt ∧
    ((s.assignIDs rt).assignIDs rt).hmdDeviceID = (s.assignIDs rt).hmdDeviceID ∧
    (∀ k, (((s.assignIDs rt).assignIDs rt).controllers k).deviceID
            = ((s.assignIDs rt).controllers k).deviceID ∧
          (((s.assignIDs rt).assignIDs rt).controllers k).hand
            = ((s.assignIDs rt).controllers k).hand ∧
          (((s.assignIDs rt).assignIDs rt).controllers k).idtrigger
            = ((s.assignIDs rt).controllers k).idtrigger ∧
          (((s.assignIDs rt).assignIDs rt).controllers k).idpad
            = ((s.assignIDs rt).controllers k).idpad) ∧
    (∀ k, (((s.assignIDs rt).assignIDs rt).trackers k).deviceID
            = ((s.assignIDs rt).trackers k).deviceID) := by
  rw [assignIDs_assignIDs]
  exact ⟨rfl, rfl, fun _ => ⟨rfl, rfl, rfl, rfl⟩, fun _ => rfl⟩

/-! ## Hands -/

theorem handKeyed_defaultInit (u : SessionIndeterminate) :
    HandKeyed (OpenVRDevice.defaultInit u) :=
  fun _ => Or.inl ⟨rfl, rfl, rfl, rfl⟩

/-- The session returned by the modelled constructor is a fresh session. -/
theorem reachable_construct (nearClip farClip worldUnitsPerMetre : float) (samples : Int)
    (u : SessionIndeterminate) :
    Reachable (OpenVRDevice.construct nearClip farClip worldUnitsPerMetre samples u) :=
  Reachable.fresh _

theorem handKeyed_invalidateDisconnected (rt : Topology) {s : OpenVRDevice} (h : HandKeyed s) :
    HandKeyed (invalidateDisconnected rt s) := by
  intro k
  simp only [invalidateDisconnected]
  split_ifs
  · exact Or.inl ⟨rfl, rfl, rfl, rfl⟩
  · exact h k

theorem handKeyed_bindDevice {s : OpenVRDevice} (p : Nat × TrackedDevice) (h : HandKeyed s) :
    HandKeyed (bindDevice s p) := by
  intro k
  rcases bindDevice_controllers s p k with h1 | ⟨_, _, _, hk, _, h1⟩
  · rw [h1]; exact h k
  · rw [h1]; exact Or.inr ⟨Int.natCast_nonneg p.1, hk⟩

theorem handKeyed_assignIDs (rt : Topology) {s : OpenVRDevice} (h : HandKeyed s) :
    HandKeyed (s.assignIDs rt) :=
  foldl_preserves bindDevice HandKeyed rt.enum
    (fun _ p _ ht => handKeyed_bindDevice p ht) _ (handKeyed_invalidateDisconnected rt h)

/-- Every reachable state keys its controller slots by hand. -/
theorem handKeyed_of_reachable {s : OpenVRDevice} (h : Reachable s) : HandKeyed s := by
  induction h with
  | fresh u => exact handKeyed_defaultInit u
  | assign rt s _ ih => exact handKeyed_assignIDs rt ih

/-- C9 fails as stated: a freshly constructed controller slot is unassigned
and its hand is `-1`, which is none of `0`, `1`, `2`. -/
theorem fresh_hand_not_documented :
    (sampleSession.controllers 0).deviceID = -1 ∧
    (sampleSession.controllers 0).hand = -1 ∧
    (sampleSession.controllers 0).hand ≠ 0 ∧
    ¬ ((sampleSession.controllers 0).hand = 0 ∨ (sampleSession.controllers 0).hand = 1 ∨
       (sampleSession.controllers 0).hand = 2) := by
  refine ⟨rfl, rfl, ?_, ?_⟩ <;> decide

/-- C9 (as amended): a controller slot's hand field is one of the three
documented classifications `0`, `1`, `2` or the unset default `-1`.  A
default-initialised controller slot has hand `-1`; in every state reachable
from a freshly constructed session by `assignIDs` calls, each controller
slot's hand is in `{-1, 0, 1, 2}`, and an unassigned slot has hand `0` or
`-1`. -/
theorem hand_documented_or_unset (s : OpenVRDevice) (hs : Reachable s) (k : Fin 2) :
    (∀ u, (ControllerData.defaultInit u).hand = -1) ∧
    ((s.controllers k).hand = -1 ∨ (s.controllers k).hand = 0 ∨
      (s.controllers k).hand = 1 ∨ (s.controllers k).hand = 2) ∧
    ((s.controllers k).deviceID = -1 →
      (s.controllers k).hand = 0 ∨ (s.controllers k).hand = -1) := by
  refine ⟨fun _ => rfl, ?_, ?_⟩
  · rcases handKeyed_of_reachable hs k with ⟨_, h, _⟩ | ⟨_, h⟩
    · exact Or.inl h
    · rcases handSlot_some h with ⟨h1, _⟩ | ⟨h1, _⟩
      · exact Or.inr (Or.inr (Or.inl h1))
      · exact Or.inr (Or.inr (Or.inr h1))
  · intro hd
    rcases handKeyed_of_reachable hs k with ⟨_, h, _⟩ | ⟨h0, _⟩
    · exact Or.inr h
    · rw [hd] at h0; exact absurd h0 (by decide)

/-- Instance of `hand_documented_or_unset` on the state reached by binding a
right controller on device index 0, at slot 1. -/
theorem hand_documented_or_unset_witness :
    Reachable (sampleSession.assignIDs [⟨true, DeviceClass.Controller, 2, 0, 1⟩]) ∧
    (((sampleSession.assignIDs [⟨true, DeviceClass.Controller, 2, 0, 1⟩]).controllers 1).hand = -1 ∨
     ((sampleSession.assignIDs [⟨true, DeviceClass.Controller, 2, 0, 1⟩]).controllers 1).hand = 0 ∨
     ((sampleSession.assignIDs [⟨true, DeviceClass.Controller, 2, 0, 1⟩]).controllers 1).hand = 1 ∨
     ((sampleSession.assignIDs [⟨true, DeviceClass.Controller, 2, 0, 1⟩]).controllers 1).hand = 2) :=
  ⟨Reachable.assign _ _ (reachable_construct _ _ _ _ _),
   (hand_documented_or_unset _ (Reachable.assign _ _ (reachable_construct _ _ _ _ _)) 1).2.1⟩

end OpenVR
